import Mathlib

/-!
Verification of the wealthz ETL core (load/replicate engine and column
transform engine) against its natural-language specification.

The definitions below are a shallow embedding of the Python sources:
  - `src/wealthz/model.py`      (pipeline data model)
  - `src/wealthz/transforms.py` (column transform engine over polars)
  - `src/wealthz/loaders.py`    (schema syncer, replication strategies, loader)
Machine-level behavior of the polars engine (string ops, list.get,
strict casts) is modelled at the value level following its documented
semantics, since that engine is the library the source delegates to.
-/

namespace Wealthz

/-- model.py `ColumnType` (StrEnum). -/
inductive ColumnType
  | string | integer | long | float | double | boolean | date | timestamp
deriving DecidableEq, Repr

/-- The string value each `ColumnType` member carries (StrEnum values). -/
def columnTypeStr : ColumnType → String
  | .string => "string"
  | .integer => "integer"
  | .long => "long"
  | .float => "float"
  | .double => "double"
  | .boolean => "boolean"
  | .date => "date"
  | .timestamp => "timestamp"

/-- model.py `Transform`: the tagged union of transform variants, with the
defaults the pydantic models declare (`replacement=""`, `index=0`,
`start=0`, `length=None`). -/
inductive Transform
  | cast (targetType : ColumnType)
  | trim
  | upper
  | lower
  | regexReplace (pattern replacement : String)
  | split (delimiter : String) (index : Int)
  | substring (start : Int) (length : Option Int)
  | dateFormat (inputFormat : String)
deriving DecidableEq, Repr

/-- model.py `Column`: name, declared type, ordered transform list. -/
structure Column where
  name : String
  type : ColumnType
  transforms : List Transform
deriving DecidableEq, Repr

/-- model.py `Table` (the pipeline fields the load engine reads).
`replication` is a plain string: the pydantic config uses
`use_enum_values=True`, so the field holds the raw StrEnum value and the
loader compares it against the map keys at request time. -/
structure Table where
  name : String
  columns : List Column
  replication : String
  primary_keys : List String
deriving DecidableEq, Repr

/-- model.py `Table.column_names`. -/
def Table.column_names (t : Table) : List String := t.columns.map Column.name

/-- Pydantic validation of `Table` (model.py lines 121-129): the fields are
type-checked (`replication` must be one of the three ReplicationType
values); no validator constrains `primary_keys` in any way. -/
def tableAccepts (t : Table) : Bool :=
  t.replication == "append" || t.replication == "full" || t.replication == "incremental"

/-- A cell value of a columnar batch. Dates/datetimes are represented by
their raw source text (their chrono parse is external to this model);
floating-point cells never arise in the claims and are not modelled. -/
inductive Value
  | str (s : String)
  | int (n : Int)
  | null
  | datetime (raw : String)
deriving DecidableEq, Repr

/-- Errors surfaced by the transform engine. `columnNotFound` is polars'
`ColumnNotFoundError` (the missing-column error of the spec); it carries
the missing column's name, which the engine's message prints. -/
inductive TransformError
  | columnNotFound (name : String)
  | duplicateOutput
  | invalidOperation
  | typeMismatch
  | unmodelledCast
deriving DecidableEq, Repr

/-- Polars dtypes appearing in transforms.py `CastColumnTransform.TYPE_MAPPING`. -/
inductive PolarsDType
  | utf8 | int32 | int64 | float32 | float64 | boolean | date | datetime
deriving DecidableEq, Repr

/-- transforms.py `CastColumnTransform.TYPE_MAPPING` (lines 35-44). -/
def TYPE_MAPPING : ColumnType → PolarsDType
  | .string => .utf8
  | .integer => .int32
  | .long => .int64
  | .float => .float32
  | .double => .float64
  | .boolean => .boolean
  | .date => .date
  | .timestamp => .datetime

/-- Value-level semantics of polars' strict `Expr.cast` for the kinds the
claims exercise: integer casts range-check against the target width and
fail (InvalidOperationError) on overflow or unparsable text; casting to
utf8 prints the value; null passes through every cast. Floating-point and
temporal kinds are outside the model (`unmodelledCast`). -/
def castValue : PolarsDType → Value → Except TransformError Value
  | _, .null => .ok .null
  | .utf8, .str s => .ok (.str s)
  | .utf8, .int n => .ok (.str (toString n))
  | .utf8, .datetime s => .ok (.str s)
  | .int32, .int n =>
      if -(2 ^ 31) ≤ n ∧ n < 2 ^ 31 then .ok (.int n) else .error .invalidOperation
  | .int32, .str s =>
      match s.toInt? with
      | some n => if -(2 ^ 31) ≤ n ∧ n < 2 ^ 31 then .ok (.int n) else .error .invalidOperation
      | none => .error .invalidOperation
  | .int64, .int n =>
      if -(2 ^ 63) ≤ n ∧ n < 2 ^ 63 then .ok (.int n) else .error .invalidOperation
  | .int64, .str s =>
      match s.toInt? with
      | some n => if -(2 ^ 63) ≤ n ∧ n < 2 ^ 63 then .ok (.int n) else .error .invalidOperation
      | none => .error .invalidOperation
  | _, _ => .error .unmodelledCast

/-- Polars `str.to_uppercase` (ASCII fragment). -/
def strUpper (s : String) : String := String.mk (s.toList.map Char.toUpper)

/-- Polars `str.to_lowercase` (ASCII fragment). -/
def strLower (s : String) : String := String.mk (s.toList.map Char.toLower)

/-- Polars `str.strip_chars()` with no argument: remove leading and
trailing whitespace. -/
def strTrim (s : String) : String :=
  String.mk (((s.toList.dropWhile Char.isWhitespace).reverse.dropWhile Char.isWhitespace).reverse)

/-- Greedy left-to-right split of a character list on a non-empty
delimiter; `fuel` bounds the recursion (one unit per examined position). -/
def splitOnFuel (sep : List Char) : Nat → List Char → List Char → List (List Char)
  | _, [], acc => [acc.reverse]
  | 0, cs, acc => [acc.reverse ++ cs]
  | fuel + 1, c :: cs, acc =>
      if sep.isPrefixOf (c :: cs) then
        acc.reverse :: splitOnFuel sep fuel (List.drop (sep.length - 1) cs) []
      else
        splitOnFuel sep fuel cs (c :: acc)

/-- Polars `str.split(by)`: split on the literal delimiter; an absent
delimiter leaves the value whole, and an empty delimiter is the identity
split. -/
def polarsSplit (s delim : String) : List String :=
  if delim = "" then [s]
  else (splitOnFuel delim.toList s.toList.length s.toList []).map String.mk

/-- Polars `list.get(index, null_on_oob=True)`: a nonnegative index selects
0-based from the front, a negative index counts back from the end, and any
index without an element yields null (`none`) instead of an error. -/
def polarsListGet (xs : List String) (i : Int) : Option String :=
  if 0 ≤ i then xs.get? i.toNat
  else
    let j : Int := (xs.length : Int) + i
    if 0 ≤ j then xs.get? j.toNat else none

/-- Polars `str.slice(offset, length)`: character-based, negative offset
counts from the end, out-of-range slices clamp to empty. -/
def polarsSlice (s : String) (start : Int) (length : Option Int) : String :=
  let cs := s.toList
  let n := cs.length
  let b : Nat := if 0 ≤ start then min start.toNat n else n - min (-start).toNat n
  let rest := cs.drop b
  let out :=
    match length with
    | none => rest
    | some l => rest.take l.toNat
  String.mk out

/-- The per-value semantics of one transform (transforms.py lines 32-107):
`cast` via `TYPE_MAPPING` and strict cast; `trim` is `str.strip_chars()`;
`upper`/`lower` case-fold; `regexReplace` is `str.replace_all` (modelled
for literal patterns — regex metacharacter interpretation lives in the
engine's regex crate, outside this embedding); `split` is
`str.split(delimiter).list.get(index, null_on_oob=True)`; `substring` is
`str.slice`; `dateFormat` parses via the external chrono engine, its
result represented by the source text. Null input passes through every
transform; string ops on non-string input are a schema error. -/
def applyTransform : Transform → Value → Except TransformError Value
  | _, .null => .ok .null
  | .cast target, v => castValue (TYPE_MAPPING target) v
  | .trim, .str s => .ok (.str (strTrim s))
  | .upper, .str s => .ok (.str (strUpper s))
  | .lower, .str s => .ok (.str (strLower s))
  | .regexReplace pat rep, .str s => .ok (.str (s.replace pat rep))
  | .split delim i, .str s =>
      .ok (match polarsListGet (polarsSplit s delim) i with
           | some p => Value.str p
           | none => Value.null)
  | .substring a l, .str s => .ok (.str (polarsSlice s a l))
  | .dateFormat _, .str s => .ok (.datetime s)
  | _, _ => .error .typeMismatch

/-- The polars expression AST fragment built by the engine: a raw column
reference, transform applications around it, and a final alias. -/
inductive Expr
  | col (name : String)
  | app (t : Transform) (e : Expr)
  | alias (e : Expr) (name : String)
deriving DecidableEq, Repr

/-- transforms.py `ColumnTransformer.build_column_expression` (lines
156-161): start from `pl.col(column.name)`, wrap each transform of the
column's list in order, alias to the declared name. -/
def build_column_expression (c : Column) : Expr :=
  Expr.alias (c.transforms.foldl (fun e t => Expr.app t e) (Expr.col c.name)) c.name

/-- Evaluate an expression over a single cell of its root column. -/
def evalExprVal (v : Value) : Expr → Except TransformError Value
  | .col _ => .ok v
  | .app t e => (evalExprVal v e).bind (applyTransform t)
  | .alias e _ => evalExprVal v e

/-- Applying a transform list to a value, first transform first. -/
def applyTransformList (ts : List Transform) (v : Value) : Except TransformError Value :=
  ts.foldl (fun r t => r.bind (applyTransform t)) (.ok v)

/-- A columnar batch: named columns over shared row positions. -/
structure DataFrame where
  cols : List (String × List Value)
deriving DecidableEq, Repr

/-- The column names of a batch, in order. -/
def DataFrame.names (df : DataFrame) : List String := df.cols.map Prod.fst

/-- The single column an expression reads (every expression the engine
builds wraps one `pl.col` reference). -/
def Expr.rootColumn : Expr → String
  | .col n => n
  | .app _ e => e.rootColumn
  | .alias e _ => e.rootColumn

/-- The output name of an expression (the last alias, else the column). -/
def Expr.outputName : Expr → String
  | .col n => n
  | .app _ e => e.outputName
  | .alias _ n => n

/-- Evaluate an expression column-wise over a batch. -/
def evalExprCol (df : DataFrame) : Expr → Except TransformError (List Value)
  | .col n =>
      match df.cols.lookup n with
      | some vs => .ok vs
      | none => .error (.columnNotFound n)
  | .app t e => (evalExprCol df e).bind (fun vs => vs.mapM (applyTransform t))
  | .alias e _ => evalExprCol df e

/-- Polars `DataFrame.select` (run through the lazy engine): schema
resolution first checks that every referenced column exists
(`ColumnNotFoundError` naming the first missing one) and that output
names are distinct (`DuplicateError`), then the expressions are computed
in order and become the only columns of the result. -/
def select (df : DataFrame) (es : List Expr) : Except TransformError DataFrame :=
  match (es.map Expr.rootColumn).find? (fun n => !(df.names.contains n)) with
  | some n => .error (.columnNotFound n)
  | none =>
      if (es.map Expr.outputName).Nodup then
        (es.mapM (fun e => (evalExprCol df e).map (fun vs => (e.outputName, vs)))).map
          (fun out => ⟨out⟩)
      else .error .duplicateOutput

/-- transforms.py `ColumnTransformer.transform` (lines 143-154): an empty
declared column list returns the batch unchanged; otherwise one
expression per declared column is built and the batch is replaced by
`df.select(expressions)`. -/
def ColumnTransformer.transform (columns : List Column) (df : DataFrame) :
    Except TransformError DataFrame :=
  if columns.isEmpty then .ok df
  else select df (columns.map build_column_expression)

/-- loaders.py `", ".join(...)`. -/
def commaJoin (xs : List String) : String := String.intercalate ", " xs

/-- loaders.py `INSERT_TPL_STMT` instantiated by `execute_insert_into`
(lines 65, 76-86). -/
def insertIntoStmt (p : Table) : String :=
  "INSERT INTO " ++ p.name ++ " (" ++ commaJoin p.column_names ++ ") SELECT " ++
    commaJoin p.column_names ++ " FROM staging;"

/-- loaders.py `TRUNCATE_TPL_STMT` instantiated by `execute_truncate`
(lines 66, 88-96). -/
def truncateStmt (p : Table) : String := "TRUNCATE TABLE " ++ p.name ++ ";"

/-- loaders.py `DELETE_TPL_STMT` instantiated by `execute_delete_where`
(lines 67-69, 98-109): the primary keys are joined with ", " into both
placeholders, with no emptiness check. -/
def deleteWhereStmt (p : Table) : String :=
  "DELETE FROM " ++ p.name ++ " WHERE (" ++ commaJoin p.primary_keys ++ ") IN (SELECT " ++
    commaJoin p.primary_keys ++ " FROM staging);"

/-- The statements `DuckLakeFullReplicationStrategy.replicate` issues
(lines 117-120): truncate, then insert from staging. -/
def fullReplicationStmts (p : Table) : List String := [truncateStmt p, insertIntoStmt p]

/-- The statement `DuckLakeAppendReplicationStrategy.replicate` issues
(lines 112-114). -/
def appendReplicationStmts (p : Table) : List String := [insertIntoStmt p]

/-- The statements `DuckLakeIncrementalReplicationStrategy.replicate`
issues (lines 123-126): delete-where-keys-in-staging, then insert. -/
def incrementalReplicationStmts (p : Table) : List String :=
  [deleteWhereStmt p, insertIntoStmt p]

/-- A destination table's contents: a list of rows. -/
abbrev TableRows := List (List Value)

/-- SQL semantics of `TRUNCATE TABLE dest`. -/
def execTruncate (_dest : TableRows) : TableRows := []

/-- SQL semantics of `INSERT INTO dest (cols) SELECT cols FROM staging`:
the staging rows are appended to the destination. -/
def execInsertFromStaging (dest staging : TableRows) : TableRows := dest ++ staging

/-- Row-level effect of Full replication, in the statement order the
strategy issues them: truncate, then insert from staging. -/
def fullReplicate (dest staging : TableRows) : TableRows :=
  execInsertFromStaging (execTruncate dest) staging

/-- loaders.py `DuckLakeSchemaSyncer.extract_duck_type` (lines 40-47):
`DUCKDB_TYPES_MAP` maps the type string "string" to "varchar" and every
other type string to itself. -/
def extract_duck_type (c : Column) : String :=
  if columnTypeStr c.type = "string" then "varchar" else columnTypeStr c.type

/-- ASCII uppercase of a string (Python `str.upper` as used on type names). -/
def pyUpper (s : String) : String := String.mk (s.toList.map Char.toUpper)

/-- loaders.py `DuckLakeSchemaSyncer.sync` columns definition (line 51). -/
def columnsDef (cols : List Column) : String :=
  String.intercalate "," (cols.map (fun c => "\n\t" ++ c.name ++ " " ++ pyUpper (extract_duck_type c)))

/-- loaders.py `CREATE_TABLE_TPL_STMT` as instantiated by `sync`
(lines 39, 49-61). -/
def syncStmt (p : Table) : String :=
  "CREATE TABLE IF NOT EXISTS " ++ p.name ++ " (" ++ columnsDef p.columns ++ ");"

/-- The catalog model: each table name maps to its columns definition and
its current rows. -/
abbrev Catalog := List (String × (String × TableRows))

/-- SQL semantics of `CREATE TABLE IF NOT EXISTS`: an existing table (its
schema and its rows) is left untouched; otherwise an empty table is
created. -/
def execCreateTableIfNotExists (name colsDef : String) (cat : Catalog) : Catalog :=
  match cat.lookup name with
  | some _ => cat
  | none => (name, (colsDef, [])) :: cat

/-- One `sync` call: the statement it issues and the catalog it leaves. -/
def sync (p : Table) (cat : Catalog) : String × Catalog :=
  (syncStmt p, execCreateTableIfNotExists p.name (columnsDef p.columns) cat)

/-- loaders.py `UnknownReplicationStrategy` (lines 129-131): a ValueError
whose message is built from the offending replication value. -/
structure UnknownReplicationStrategy where
  message : String
deriving DecidableEq, Repr

/-- The three strategy classes of `REPLICATION_STRATEGY_MAP` (lines 136-140). -/
inductive ReplicationStrategyKind
  | full | append | incremental
deriving DecidableEq, Repr

/-- loaders.py `REPLICATION_STRATEGY_MAP.get` (lines 136-140): keyed by the
replication value, `none` for anything outside the three entries. -/
def REPLICATION_STRATEGY_MAP (r : String) : Option ReplicationStrategyKind :=
  if r = "full" then some .full
  else if r = "append" then some .append
  else if r = "incremental" then some .incremental
  else none

/-- loaders.py `DuckLakeLoader.get_replication_strategy` (lines 157-161):
look the replication value up in the map; a missing entry raises
`UnknownReplicationStrategy` whose message names the value. -/
def get_replication_strategy (r : String) :
    Except UnknownReplicationStrategy ReplicationStrategyKind :=
  match REPLICATION_STRATEGY_MAP r with
  | some k => .ok k
  | none => .error ⟨"Unknown replication strategy: " ++ r⟩

/-- The statements one strategy's `replicate()` issues. -/
def strategyStmts (k : ReplicationStrategyKind) (p : Table) : List String :=
  match k with
  | .full => fullReplicationStmts p
  | .append => appendReplicationStmts p
  | .incremental => incrementalReplicationStmts p

/-- Which connection calls raise during a load (the test doubles make
`register` or the strategy's statements raise). -/
structure LoadEnv where
  registerRaises : Bool
  replicateRaises : Bool
deriving DecidableEq, Repr

/-- How `DuckLakeLoader.load` finishes: `committed`; `swallowed` = the
except-branch ran (rollback, `logger.exception`, normal return of None);
`raised` = an exception propagated out of `load` to the caller. -/
inductive LoadOutcome
  | committed | swallowed | raised
deriving DecidableEq, Repr

/-- The calls issued on the connection during one load. -/
inductive ConnAction
  | beginTx | registerStaging | execStmt (s : String) | commitTx | rollbackTx
deriving DecidableEq, Repr

/-- loaders.py `DuckLakeLoader.load` (lines 146-155): begin; register the
batch as `staging`; resolve the strategy; replicate; commit. Any
exception in the try-block lands in `except Exception`, which rolls the
transaction back, logs, and falls off the end of the method — the
exception is not re-raised, so `load` returns normally (`swallowed`). -/
def DuckLakeLoader.load (p : Table) (env : LoadEnv) : LoadOutcome × List ConnAction :=
  if env.registerRaises then (.swallowed, [.beginTx, .rollbackTx])
  else
    match get_replication_strategy p.replication with
    | .error _ => (.swallowed, [.beginTx, .registerStaging, .rollbackTx])
    | .ok k =>
        if env.replicateRaises then (.swallowed, [.beginTx, .registerStaging, .rollbackTx])
        else
          (.committed,
            [ConnAction.beginTx, ConnAction.registerStaging] ++
              (strategyStmts k p).map ConnAction.execStmt ++ [ConnAction.commitTx])

/-- A representative pipeline (shape of the tests' people pipeline). -/
def peoplePipeline : Table :=
  { name := "people",
    columns := [⟨"id", ColumnType.long, []⟩, ⟨"name", ColumnType.string, []⟩],
    replication := "incremental",
    primary_keys := ["id"] }

/-- The people pipeline with Incremental replication and no primary keys. -/
def noPkPipeline : Table :=
  { name := "people",
    columns := [⟨"id", ColumnType.long, []⟩, ⟨"name", ColumnType.string, []⟩],
    replication := "incremental",
    primary_keys := [] }

/-- The reading of Split stated by the spec, written from its words for
comparison with `applyTransform`: return the index-th (0-based) part of
the split value, and a null value for any index that has no such part
(in 0-based counting no negative index does). -/
def splitClaimSemantics (s delim : String) (index : Int) : Value :=
  if 0 ≤ index then
    match (polarsSplit s delim).get? index.toNat with
    | some p => Value.str p
    | none => Value.null
  else Value.null

theorem evalExprVal_foldl (ts : List Transform) (e : Expr) (v : Value) :
    evalExprVal v (ts.foldl (fun e t => Expr.app t e) e) =
      ts.foldl (fun r t => r.bind (applyTransform t)) (evalExprVal v e) := by
  induction ts generalizing e with
  | nil => rfl
  | cons t ts ih => simp [List.foldl, ih, evalExprVal]

theorem rootColumn_foldl (ts : List Transform) (e : Expr) :
    (ts.foldl (fun e t => Expr.app t e) e).rootColumn = e.rootColumn := by
  induction ts generalizing e with
  | nil => rfl
  | cons t ts ih => simp [List.foldl, ih, Expr.rootColumn]

theorem rootColumn_build (c : Column) :
    (build_column_expression c).rootColumn = c.name := by
  simp [build_column_expression, Expr.rootColumn, rootColumn_foldl]

theorem outputName_build (c : Column) :
    (build_column_expression c).outputName = c.name := rfl

theorem select_mapM_names (df : DataFrame) (es : List Expr)
    (out : List (String × List Value))
    (h : es.mapM (fun e => (evalExprCol df e).map (fun vs => (e.outputName, vs))) = .ok out) :
    out.map Prod.fst = es.map Expr.outputName := by
  induction es generalizing out with
  | nil =>
      simp only [List.mapM_nil, pure] at h
      cases h
      rfl
  | cons e es ih =>
      rw [List.mapM_cons] at h
      cases he : evalExprCol df e with
      | error err => rw [he] at h; cases h
      | ok vs =>
          rw [he] at h
          cases hes : es.mapM (fun e => (evalExprCol df e).map (fun vs => (e.outputName, vs))) with
          | error err => rw [hes] at h; cases h
          | ok rest => rw [hes] at h; cases h; simp [ih rest hes]

/-- C4: Full replication truncates the destination and inserts the staging
rows, so the destination ends up exactly equal to the incoming batch, and
running Full replication twice with the same batch leaves the destination
equal to that batch, regardless of prior destination content. -/
theorem full_replication_exact_and_idempotent :
    ∀ (dest staging : TableRows),
      fullReplicate dest staging = staging ∧
      fullReplicate (fullReplicate dest staging) staging = staging := by
  intro dest staging
  simp [fullReplicate, execInsertFromStaging, execTruncate]

/-- C5: for every replication value outside Full, Append and Incremental,
requesting the strategy yields the unknown-replication-strategy error,
whose message contains the offending value; the error comes from
`get_replication_strategy`, the point where a strategy is requested. -/
theorem unknown_replication_strategy_error (r : String)
    (h : r ≠ "full" ∧ r ≠ "append" ∧ r ≠ "incremental") :
    ∃ e, get_replication_strategy r = .error e ∧
      e.message = "Unknown replication strategy: " ++ r ∧
      ∃ pre post, e.message = pre ++ r ++ post := by
  refine ⟨⟨"Unknown replication strategy: " ++ r⟩, ?_, rfl,
    "Unknown replication strategy: ", "", by simp⟩
  simp [get_replication_strategy, REPLICATION_STRATEGY_MAP, h.1, h.2.1, h.2.2]

/-- Witness for C5 at the replication value "unknown". -/
theorem unknown_replication_strategy_error_witness :
    ∃ e, get_replication_strategy "unknown" = .error e ∧
      e.message = "Unknown replication strategy: " ++ "unknown" ∧
      ∃ pre post, e.message = pre ++ "unknown" ++ post :=
  unknown_replication_strategy_error "unknown" (by decide)

/-- C6: a column's transforms are folded left-to-right onto the raw column
reference — evaluating the built expression applies the first listed
transform first — and applying [Upper, Trim, Split(",", 0)] to
"  hello,world  " yields "HELLO". -/
theorem transforms_fold_left_to_right :
    (∀ (c : Column) (v : Value),
        evalExprVal v (build_column_expression c) = applyTransformList c.transforms v) ∧
    evalExprVal (Value.str "  hello,world  ")
        (build_column_expression
          ⟨"test", ColumnType.string,
            [Transform.upper, Transform.trim, Transform.split "," 0]⟩) =
      .ok (Value.str "HELLO") := by
  constructor
  · intro c v
    simp [build_column_expression, evalExprVal, applyTransformList, evalExprVal_foldl]
  · rfl

/-- Counterexample for C9: a negative Split index is not given the claim's
semantics. The source's `list.get(index, null_on_oob=True)` counts a
negative index back from the end, so Split(",", -1) on "a,b" yields "b",
while the claim's 0-based reading (no -1-th part exists) yields null. -/
theorem split_negative_index_counterexample :
    applyTransform (Transform.split "," (-1)) (Value.str "a,b") = .ok (Value.str "b") ∧
    splitClaimSemantics "a,b" "," (-1) = Value.null ∧
    applyTransform (Transform.split "," (-1)) (Value.str "a,b") ≠
      .ok (splitClaimSemantics "a,b" "," (-1)) := by
  refine ⟨rfl, rfl, ?_⟩
  intro h
  rw [show applyTransform (Transform.split "," (-1)) (Value.str "a,b") =
      .ok (Value.str "b") from rfl,
    show splitClaimSemantics "a,b" "," (-1) = Value.null from rfl] at h
  cases h

/-- C9 as amended: Split never errors on a string value; a nonnegative
index returns the index-th (0-based) part, null when out of bounds; a
negative index counts back from the end (polars `list.get` semantics) and
yields null only when it falls before the first part. -/
theorem split_out_of_bounds_null (s delim : String) (i : Int) :
    (∃ v, applyTransform (Transform.split delim i) (Value.str s) = .ok v) ∧
    (0 ≤ i →
      applyTransform (Transform.split delim i) (Value.str s) =
        .ok (match (polarsSplit s delim).get? i.toNat with
             | some p => Value.str p
             | none => Value.null)) ∧
    (i < 0 → ((polarsSplit s delim).length : Int) + i < 0 →
      applyTransform (Transform.split delim i) (Value.str s) = .ok Value.null) := by
  refine ⟨⟨_, rfl⟩, ?_, ?_⟩
  · intro h
    simp only [applyTransform, polarsListGet, if_pos h]
  · intro h1 h2
    simp only [applyTransform, polarsListGet, if_neg (by omega : ¬(0 : Int) ≤ i),
      if_neg (by omega : ¬(0 : Int) ≤ (polarsSplit s delim).length + i)]

/-- Witness for C9's amended claim: Split(",", 5) on "a,b" yields null. -/
theorem split_out_of_bounds_null_witness :
    applyTransform (Transform.split "," 5) (Value.str "a,b") = .ok Value.null :=
  (split_out_of_bounds_null "a,b" "," 5).2.1 (by decide)

/-- C10: the Cast transform's fixed mapping sends integer to Int32, float
to Float32, long to Int64, double to Float64, string to Utf8 and
timestamp to Datetime; a value outside the 32-bit range (|Int32| bound
2^31 = 2147483648) is a cast failure while in-range values cast
unchanged. -/
theorem cast_type_mapping_widths :
    TYPE_MAPPING ColumnType.integer = PolarsDType.int32 ∧
    TYPE_MAPPING ColumnType.float = PolarsDType.float32 ∧
    TYPE_MAPPING ColumnType.long = PolarsDType.int64 ∧
    TYPE_MAPPING ColumnType.double = PolarsDType.float64 ∧
    TYPE_MAPPING ColumnType.string = PolarsDType.utf8 ∧
    TYPE_MAPPING ColumnType.timestamp = PolarsDType.datetime ∧
    (∀ n : Int, 2147483648 ≤ n ∨ n < -2147483648 →
      applyTransform (Transform.cast ColumnType.integer) (Value.int n) =
        .error TransformError.invalidOperation) ∧
    (∀ n : Int, -2147483648 ≤ n ∧ n < 2147483648 →
      applyTransform (Transform.cast ColumnType.integer) (Value.int n) = .ok (Value.int n)) := by
  refine ⟨rfl, rfl, rfl, rfl, rfl, rfl, ?_, ?_⟩
  · intro n h
    simp only [applyTransform, TYPE_MAPPING, castValue]
    rw [if_neg (by omega)]
  · intro n h
    simp only [applyTransform, TYPE_MAPPING, castValue]
    rw [if_pos (by omega)]

/-- Witness for C10: 2^31 overflows the integer cast, 41 casts unchanged. -/
theorem cast_type_mapping_widths_witness :
    applyTransform (Transform.cast ColumnType.integer) (Value.int 2147483648) =
      .error TransformError.invalidOperation ∧
    applyTransform (Transform.cast ColumnType.integer) (Value.int 41) = .ok (Value.int 41) :=
  ⟨cast_type_mapping_widths.2.2.2.2.2.2.1 2147483648 (by omega),
   cast_type_mapping_widths.2.2.2.2.2.2.2 41 (by omega)⟩

/-- C1: what `DuckLakeLoader.load` actually does on failure. When staging
registration raises, the transaction is rolled back — but the except
branch only logs and the method returns normally, so no error reaches the
caller; indeed no run of `load`, for any pipeline and any failure
pattern, ever propagates an exception. This exhibits the divergence from
the claim (and from the spec's stated design requirement) that a
rolled-back load must re-raise. -/
theorem load_rolls_back_and_swallows :
    DuckLakeLoader.load peoplePipeline ⟨true, false⟩ =
      (LoadOutcome.swallowed, [ConnAction.beginTx, ConnAction.rollbackTx]) ∧
    ∀ (p : Table) (env : LoadEnv),
      (DuckLakeLoader.load p env).1 ≠ LoadOutcome.raised := by
  refine ⟨rfl, ?_⟩
  intro p env
  unfold DuckLakeLoader.load
  cases env.registerRaises with
  | true => simp
  | false =>
      cases get_replication_strategy p.replication with
      | error e => simp
      | ok k => cases env.replicateRaises <;> simp

/-- Counterexample for C2: a pipeline with Incremental replication and
empty primary keys is accepted by configuration validation (no validator
constrains `primary_keys`), the strategy resolves, and the incremental
load proceeds to issue SQL — its first statement the malformed DELETE
with an empty key tuple — rather than failing with a configuration error
before any statement runs. -/
theorem incremental_empty_pk_counterexample :
    noPkPipeline.replication = "incremental" ∧
    noPkPipeline.primary_keys = [] ∧
    tableAccepts noPkPipeline = true ∧
    get_replication_strategy noPkPipeline.replication = .ok ReplicationStrategyKind.incremental ∧
    strategyStmts ReplicationStrategyKind.incremental noPkPipeline =
      ["DELETE FROM people WHERE () IN (SELECT  FROM staging);",
       "INSERT INTO people (id, name) SELECT id, name FROM staging;"] := by
  refine ⟨rfl, rfl, rfl, rfl, rfl⟩

/-- C2 as amended: `primary_keys` is never validated — a pipeline with
Incremental replication is accepted whatever its `primary_keys`, and when
they are empty the incremental strategy still builds and issues its two
statements, the first being a DELETE with an empty key tuple (left to
fail, if at all, inside the SQL engine at execution time). -/
theorem incremental_empty_pk_not_validated (p : Table)
    (hrep : p.replication = "incremental") (hpk : p.primary_keys = []) :
    tableAccepts p = true ∧
    incrementalReplicationStmts p =
      ["DELETE FROM " ++ p.name ++ " WHERE () IN (SELECT  FROM staging);",
       insertIntoStmt p] := by
  constructor
  · simp [tableAccepts, hrep]
  · simp [incrementalReplicationStmts, deleteWhereStmt, hpk, commaJoin,
      String.intercalate, String.append_assoc]

/-- Witness for C2's amended claim at the concrete no-primary-keys pipeline. -/
theorem incremental_empty_pk_not_validated_witness :
    tableAccepts noPkPipeline = true ∧
    incrementalReplicationStmts noPkPipeline =
      ["DELETE FROM " ++ noPkPipeline.name ++ " WHERE () IN (SELECT  FROM staging);",
       insertIntoStmt noPkPipeline] :=
  incremental_empty_pk_not_validated noPkPipeline rfl rfl

/-- C7: the schema syncer's statement maps the declared type string to
varchar and passes every other declared type through unchanged,
uppercased; `sync` issues the same CREATE TABLE IF NOT EXISTS statement
on every call, a second call leaves the catalog exactly as the first
left it, and an existing destination table keeps its columns definition
and its rows across a sync. -/
theorem schema_sync_idempotent :
    (∀ c : Column, pyUpper (extract_duck_type c) =
        if c.type = ColumnType.string then "VARCHAR" else pyUpper (columnTypeStr c.type)) ∧
    (∀ (p : Table) (cat : Catalog),
      (sync p cat).1 = syncStmt p ∧
      (sync p (sync p cat).2).1 = syncStmt p ∧
      (sync p (sync p cat).2).2 = (sync p cat).2) ∧
    (∀ (p : Table) (cat : Catalog) (d : String) (rows : TableRows),
      cat.lookup p.name = some (d, rows) →
      ((sync p cat).2).lookup p.name = some (d, rows)) := by
  refine ⟨?_, ?_, ?_⟩
  · intro c
    cases h : c.type <;> simp [extract_duck_type, columnTypeStr, h, pyUpper]
  · intro p cat
    refine ⟨rfl, rfl, ?_⟩
    simp only [sync, execCreateTableIfNotExists]
    cases h : cat.lookup p.name with
    | some v => simp [h]
    | none => simp [h, List.lookup]
  · intro p cat d rows h
    simp [sync, execCreateTableIfNotExists, h]

/-- Witness for C7: syncing over a catalog already holding the people
table leaves its schema text and rows untouched. -/
theorem schema_sync_idempotent_witness :
    ((sync peoplePipeline [("people", ("id BIGINT", [[Value.int 7]]))]).2).lookup
        peoplePipeline.name = some ("id BIGINT", [[Value.int 7]]) :=
  schema_sync_idempotent.2.2 peoplePipeline [("people", ("id BIGINT", [[Value.int 7]]))]
    "id BIGINT" [[Value.int 7]] rfl

/-- C3: when a declared column is absent from the batch, the transform
engine fails with the missing-column error naming a declared-but-absent
column (schema resolution finds it before anything is computed), and no
transformed batch is returned. -/
theorem missing_column_error (cols : List Column) (df : DataFrame) (c : Column)
    (hc : c ∈ cols) (hm : c.name ∉ df.names) :
    ∃ m, ColumnTransformer.transform cols df = .error (.columnNotFound m) ∧
      m ∈ cols.map Column.name ∧ m ∉ df.names ∧
      ∀ df', ColumnTransformer.transform cols df ≠ .ok df' := by
  have hne : cols.isEmpty = false := by
    cases cols with
    | nil => cases hc
    | cons a l => rfl
  have hroot : (cols.map build_column_expression).map Expr.rootColumn = cols.map Column.name := by
    rw [List.map_map]
    exact List.map_congr_left (fun x _ => rootColumn_build x)
  cases hf : ((cols.map build_column_expression).map Expr.rootColumn).find?
      (fun n => !(df.names.contains n)) with
  | none =>
      exfalso
      have := List.find?_eq_none.mp hf c.name
        (by rw [hroot]; exact List.mem_map_of_mem Column.name hc)
      simp at this
      exact hm this
  | some m =>
      have hpm := List.find?_some hf
      have hmem : m ∈ (cols.map build_column_expression).map Expr.rootColumn :=
        List.mem_of_find?_eq_some hf
      have hmnot : m ∉ df.names := by simpa using hpm
      refine ⟨m, ?_, by rwa [hroot] at hmem, hmnot, ?_⟩
      · simp only [ColumnTransformer.transform, hne, Bool.false_eq_true, if_neg,
          ite_false, select, hf]
      · intro df' hcontra
        rw [show ColumnTransformer.transform cols df =
            select df (cols.map build_column_expression) from by
          simp [ColumnTransformer.transform, hne]] at hcontra
        simp only [select, hf] at hcontra
        cases hcontra

/-- Witness for C3: a batch holding only "existing" against a pipeline
declaring "missing" fails with the missing-column error naming it. -/
theorem missing_column_error_witness :
    ∃ m, ColumnTransformer.transform
        [{ name := "missing", type := ColumnType.string, transforms := [Transform.upper] }]
        ⟨[("existing", [Value.str "test"])]⟩ = .error (.columnNotFound m) ∧
      m ∈ List.map Column.name
        [{ name := "missing", type := ColumnType.string, transforms := [Transform.upper] }] ∧
      m ∉ DataFrame.names ⟨[("existing", [Value.str "test"])]⟩ ∧
      ∀ df', ColumnTransformer.transform
        [{ name := "missing", type := ColumnType.string, transforms := [Transform.upper] }]
        ⟨[("existing", [Value.str "test"])]⟩ ≠ .ok df' :=
  missing_column_error _ _
    { name := "missing", type := ColumnType.string, transforms := [Transform.upper] }
    (by simp) (by simp [DataFrame.names])

/-- C8: on success the transform engine's output holds exactly the
declared columns, in declared order, each under its declared name
(anything undeclared is dropped), and an empty declared column list
returns the batch unchanged. -/
theorem projection_exact_declared_columns :
    (∀ (cols : List Column) (df df' : DataFrame),
        cols ≠ [] → ColumnTransformer.transform cols df = .ok df' →
        df'.names = cols.map Column.name) ∧
    (∀ df : DataFrame, ColumnTransformer.transform [] df = .ok df) := by
  constructor
  · intro cols df df' hne h
    have hempty : cols.isEmpty = false := by
      cases cols with
      | nil => exact absurd rfl hne
      | cons a l => rfl
    rw [show ColumnTransformer.transform cols df =
        select df (cols.map build_column_expression) from by
      simp [ColumnTransformer.transform, hempty]] at h
    unfold select at h
    cases hf : ((cols.map build_column_expression).map Expr.rootColumn).find?
        (fun n => !(df.names.contains n)) with
    | some m => rw [hf] at h; cases h
    | none =>
        rw [hf] at h
        by_cases hd : ((cols.map build_column_expression).map Expr.outputName).Nodup
        · rw [if_pos hd] at h
          cases hmm : (cols.map build_column_expression).mapM
              (fun e => (evalExprCol df e).map (fun vs => (e.outputName, vs))) with
          | error err => rw [hmm] at h; cases h
          | ok out =>
              rw [hmm] at h
              cases h
              have := select_mapM_names df (cols.map build_column_expression) out hmm
              simp only [DataFrame.names]
              rw [this, List.map_map]
              exact List.map_congr_left (fun x _ => outputName_build x)
        · rw [if_neg hd] at h; cases h
  · intro df
    rfl

/-- Witness for C8: declared column "a" projects the two-column batch to
exactly ["a"]; the empty column list is the identity. -/
theorem projection_exact_declared_columns_witness :
    DataFrame.names ⟨[("a", [Value.str "x"])]⟩ =
      List.map Column.name [{ name := "a", type := ColumnType.string, transforms := [] }] ∧
    ColumnTransformer.transform [] ⟨[("z", [Value.int 3])]⟩ = .ok ⟨[("z", [Value.int 3])]⟩ :=
  ⟨projection_exact_declared_columns.1
      [{ name := "a", type := ColumnType.string, transforms := [] }]
      ⟨[("b", [Value.int 1]), ("a", [Value.str "x"])]⟩
      ⟨[("a", [Value.str "x"])]⟩ (by simp) rfl,
   projection_exact_declared_columns.2 ⟨[("z", [Value.int 3])]⟩⟩

end Wealthz
